import Mathlib

/-!
Verification development for src/Third Assignment/tdt4200_f23_ps3_handout/src/heat_parallel.c,
a distributed 2D heat-diffusion solver skeleton.

Shallow embedding conventions:
* real_t (double) is modelled by the real numbers.
* A temperature or diffusivity buffer is modelled through the macro view
  T(x,y) = temp[y * (N + 2) + x] as a function of the two indices; buffers
  whose initialization status matters are modelled with Option-valued cells
  (none = the malloc'ed cell was never written).
* int_t values appearing in the program are nonnegative in every run, so
  they are modelled by natural numbers; C integer division on nonnegative
  operands is Nat division.
-/

namespace HeatParallel

/-- A fully-written temperature buffer, viewed through the 2D indexing macro. -/
abbrev Grid := ℕ → ℕ → ℝ

/-- A buffer whose cells may be unwritten (malloc'ed but never assigned). -/
abbrev OGrid := ℕ → ℕ → Option ℝ

/-- Source line 215: dt = 0.1. -/
def dt : ℝ := 0.1

/-- Source line 207: int_t local_col = M/dims[0]. This is the number of interior
rows of the local subgrid (the extent of the y loop index). -/
def local_col (M d0 : ℕ) : ℕ := M / d0

/-- Source line 208: int_t local_row = N/dims[1]. This is the number of interior
columns of the local subgrid (the extent of the x loop index). -/
def local_row (N d1 : ℕ) : ℕ := N / d1

/-- First cartesian coordinate of a rank, per the MPI standard's row-major
rank ordering for a non-periodic 2D cartesian communicator (MPI_Cart_coords,
source line 91). -/
def cart_coord0 (d1 rank : ℕ) : ℕ := rank / d1

/-- Second cartesian coordinate of a rank, per the MPI standard's row-major
rank ordering (MPI_Cart_coords, source line 91). -/
def cart_coord1 (d1 rank : ℕ) : ℕ := rank % d1

/-- Source line 216: int_t offset_x = local_row * coord[0]. -/
def offset_x (N d1 c0 : ℕ) : ℕ := local_row N d1 * c0

/-- Source line 217: int_t offset_y = local_col * coord[1]. -/
def offset_y (M d0 c1 : ℕ) : ℕ := local_col M d0 * c1

/-- Source lines 137-162, time_step: for y = 1..M/size, x = 1..N/size the cell
(x,y) of the next buffer receives
c + K * dt * ((l - 2c + r) + (b - 2c + t)) where c = T(x,y), t = T(x-1,y),
b = T(x+1,y), l = T(x,y-1), r = T(x,y+1); every other cell of the next buffer
keeps its old value. The next buffer is a distinct array from the current one,
so the update is simultaneous. -/
def time_step (M N size : ℕ) (dtv : ℝ) (K cur nxt : Grid) : Grid := fun x y =>
  if 1 ≤ x ∧ x ≤ N / size ∧ 1 ≤ y ∧ y ≤ M / size then
    cur x y + K x y * dtv *
      ((cur x (y - 1) - 2 * cur x y + cur x (y + 1)) +
       (cur (x + 1) y - 2 * cur x y + cur (x - 1) y))
  else nxt x y

/-- Source lines 171-175, first statement of the loop: T(x, 0) = T(x, 2)
for x = 1..N/dims[0]; executed on every rank, with no topology guard. -/
def bc_top (M N d0 d1 : ℕ) (g : Grid) : Grid := fun x y =>
  if 1 ≤ x ∧ x ≤ N / d0 ∧ y = 0 then g x 2 else g x y

/-- Source lines 171-175, second statement of the loop:
T(x, M/dims[1]+1) = T(x, M/dims[1]-1) for x = 1..N/dims[0]; executed on every
rank. It reads the buffer after the first statement's writes, which matters
only when M/dims[1] = 1. -/
def bc_bottom (M N d0 d1 : ℕ) (g : Grid) : Grid := fun x y =>
  if 1 ≤ x ∧ x ≤ N / d0 ∧ y = M / d1 + 1 then g x (M / d1 - 1) else g x y

/-- Source lines 178-184: if rank == 0 then T(0, y) = T(2, y) for
y = 1..M/dims[1]. -/
def bc_left (M N d0 d1 rank : ℕ) (g : Grid) : Grid := fun x y =>
  if rank = 0 ∧ x = 0 ∧ 1 ≤ y ∧ y ≤ M / d1 then g 2 y else g x y

/-- Source lines 187-193: if rank == size - 1 then
T(N/dims[0]+1, y) = T(N/dims[0]-1, y) for y = 1..M/dims[1]. -/
def bc_right (M N d0 d1 rank size : ℕ) (g : Grid) : Grid := fun x y =>
  if rank = size - 1 ∧ x = N / d0 + 1 ∧ 1 ≤ y ∧ y ≤ M / d1 then g (N / d0 - 1) y
  else g x y

/-- Source lines 165-194, boundary_condition: the four write phases in program
order. The phases have pairwise disjoint write targets and each later phase
reads the buffer produced by the earlier ones, so sequential composition is
the exact semantics of the C function. -/
def boundary_condition (M N d0 d1 rank size : ℕ) (g : Grid) : Grid :=
  bc_right M N d0 d1 rank size (bc_left M N d0 d1 rank (bc_bottom M N d0 d1 (bc_top M N d0 d1 g)))

/-- Modelled from the spec: border_exchange is declared at source line 43 but
never defined anywhere in the repository (TODO 6 in main leaves the halo
exchange unimplemented). Per spec section 4.2, for each of the four directions
a process with a neighbor receives the neighbor's adjacent interior row or
column into the corresponding halo slot of its current buffer, and where no
neighbor exists the halo is left alone. Here f gives every process's current
buffer, indexed by cartesian coordinates (p, q) with p along x in [0, d0) and
q along y in [0, d1); each local subgrid has interior x in [1, nx] and
y in [1, ny]. -/
def border_exchange (d0 d1 nx ny : ℕ) (f : ℕ → ℕ → Grid) (p q : ℕ) : Grid := fun x y =>
  if x = 0 ∧ 1 ≤ p ∧ 1 ≤ y ∧ y ≤ ny then f (p - 1) q nx y
  else if x = nx + 1 ∧ p + 1 < d0 ∧ 1 ≤ y ∧ y ≤ ny then f (p + 1) q 1 y
  else if y = 0 ∧ 1 ≤ q ∧ 1 ≤ x ∧ x ≤ nx then f p (q - 1) x ny
  else if y = ny + 1 ∧ q + 1 < d1 ∧ 1 ≤ x ∧ x ≤ nx then f p (q + 1) x 1
  else f p q x y

/-- Source lines 219-230, domain_init, writes to temp[0]: for y = 1..local_col,
x = 1..local_row the cell receives 30 + 30 * sin(((x + offset_x) + (offset_y + y)) / 20.0);
all other cells of the freshly malloc'ed buffer stay unwritten. -/
noncomputable def domain_init_T (M N d0 d1 c0 c1 : ℕ) : OGrid := fun x y =>
  if 1 ≤ x ∧ x ≤ local_row N d1 ∧ 1 ≤ y ∧ y ≤ local_col M d0 then
    some (30 + 30 * Real.sin ((((x : ℝ) + (offset_x N d1 c0 : ℕ)) + ((offset_y M d0 c1 : ℕ) + (y : ℝ))) / 20))
  else none

/-- Source lines 219-230, domain_init, writes to temp[1]: the same loop stores
the same temperature value into the next buffer. -/
noncomputable def domain_init_T_next (M N d0 d1 c0 c1 : ℕ) : OGrid := fun x y =>
  if 1 ≤ x ∧ x ≤ local_row N d1 ∧ 1 ≤ y ∧ y ≤ local_col M d0 then
    some (30 + 30 * Real.sin ((((x : ℝ) + (offset_x N d1 c0 : ℕ)) + ((offset_y M d0 c1 : ℕ) + (y : ℝ))) / 20))
  else none

/-- Source lines 219-230, domain_init, writes to thermal_diffusivity: the same
loop stores 0.05 + (30 + 30 * sin((N - x + offset_x + offset_y + y) / 20.0)) / 605.0.
Inside the loop x is at most N/dims[1], which is at most N, so the int64
expression N - x + offset_x + offset_y + y is nonnegative and equals the real
expression written here. -/
noncomputable def domain_init_K (M N d0 d1 c0 c1 : ℕ) : OGrid := fun x y =>
  if 1 ≤ x ∧ x ≤ local_row N d1 ∧ 1 ≤ y ∧ y ≤ local_col M d0 then
    some (0.05 + (30 + 30 * Real.sin (((N : ℝ) - (x : ℝ) + (offset_x N d1 c0 : ℕ) + (offset_y M d0 c1 : ℕ) + (y : ℝ)) / 20)) / 605)
  else none

/-- View of a buffer as the flat array the C code malloc'ed: the macro
T(x,y) = temp[y * (N + 2) + x] sends flat index k to coordinates
(k mod (N + 2), k div (N + 2)). Every write performed through the macro in this
file has x < N + 2, so this view is exact. -/
def flatten_buf (N : ℕ) (g : OGrid) : ℕ → Option ℝ := fun k => g (k % (N + 2)) (k / (N + 2))

/-- Source lines 240-243: sprintf(filename, "data/%.5ld.bin", index) with
index = iteration / snapshot_frequency; %.5ld left-pads the decimal digits
with zeros to at least five characters. -/
def zeroPad5 (n : ℕ) : String :=
  let s := toString n
  String.mk (List.replicate (5 - s.length) '0') ++ s

/-- Source lines 240-243: the checkpoint file name for an iteration. -/
def domain_save_filename (snapshot_frequency iteration : ℕ) : String :=
  "data/" ++ zeroPad5 (iteration / snapshot_frequency) ++ ".bin"

/-- Source lines 250-253, domain_save: for iter = 1..N the call
fwrite(temp[0] + (M+2) * iter + 1, sizeof(real_t), N, out) appends N doubles
taken from flat offsets (M+2) * iter + 1 .. (M+2) * iter + N of the current
buffer. The resulting file content is this list of N * N cells, eight bytes
per cell, with no header. -/
def domain_save_content (M N : ℕ) (buf : ℕ → Option ℝ) : List (Option ℝ) :=
  (List.range N).flatMap fun i => (List.range N).map fun j => buf ((M + 2) * (i + 1) + 1 + j)

/-- State touched by the main loop: the two ping-pong buffers and the list of
iterations at which domain_save has run. -/
structure SimState where
  temp0 : Grid
  temp1 : Grid
  saved : List ℕ

/-- Source lines 100-123, one iteration of the main loop as the code stands:
the border exchange is unimplemented (TODO 6), the boundary_condition and
time_step calls are commented out, and inside the snapshot-cadence branch only
a progress printf runs because the domain_save call is commented out as well.
The only state change is swap(&temp[0], &temp[1]). -/
def driver_step (snapshot_frequency iteration : ℕ) (s : SimState) : SimState :=
  ⟨s.temp1, s.temp0, s.saved⟩

/-- Source lines 100-123: for iteration = 0..max_iteration the loop body runs
once per iteration, max_iteration + 1 times in total. -/
def main_loop (max_iteration snapshot_frequency : ℕ) (s : SimState) : SimState :=
  (List.range (max_iteration + 1)).foldl (fun st it => driver_step snapshot_frequency it st) s

/-- Outcome of one process at a fatal-error detection point. -/
inductive ProcOutcome
  | exitedSelf
  | continues
deriving DecidableEq

/-- Source lines 70-82: only rank 0 parses the arguments; on a parse failure it
calls exit(1) and terminates itself, while every other rank falls through to
the MPI_Bcast calls. No MPI_Abort appears anywhere in the file. -/
def startup_outcome (rank : ℕ) (parse_ok : Bool) : ProcOutcome :=
  if rank = 0 ∧ parse_ok = false then .exitedSelf else .continues

/-- Source lines 245-249: a failed fopen in domain_save makes the calling
process exit(1); exit terminates only the calling process, so the set of ranks
terminated by the code's fatal-error handling is the singleton of the caller. -/
def exit_ranks (caller : ℕ) : Finset ℕ := {caller}

/-! Helper lemmas. -/

lemma flatMap_congr_mem {α β : Type} (l : List α) (f g : α → List β)
    (h : ∀ a ∈ l, f a = g a) : l.flatMap f = l.flatMap g := by
  induction l with
  | nil => rfl
  | cons a t ih =>
    simp only [List.flatMap_cons]
    rw [h a (by simp), ih fun b hb => h b (by simp [hb])]

lemma map_congr_mem {α β : Type} (l : List α) (f g : α → β)
    (h : ∀ a ∈ l, f a = g a) : l.map f = l.map g := by
  induction l with
  | nil => rfl
  | cons a t ih =>
    simp only [List.map_cons]
    rw [h a (by simp), ih fun b hb => h b (by simp [hb])]

lemma length_flatMap_const {α β : Type} (l : List α) (f : α → List β) (m : ℕ)
    (h : ∀ a ∈ l, (f a).length = m) : (l.flatMap f).length = l.length * m := by
  induction l with
  | nil => simp
  | cons a t ih =>
    simp only [List.flatMap_cons, List.length_append, List.length_cons,
      h a (by simp), ih fun b hb => h b (by simp [hb])]
    ring

lemma foldl_driver_saved (l : List ℕ) (sf : ℕ) (s : SimState) :
    (l.foldl (fun st it => driver_step sf it st) s).saved = s.saved := by
  induction l generalizing s with
  | nil => rfl
  | cons a t ih => simpa [driver_step] using ih ⟨s.temp1, s.temp0, s.saved⟩

lemma domain_save_length (M N : ℕ) (buf : ℕ → Option ℝ) :
    (domain_save_content M N buf).length = N * N := by
  unfold domain_save_content
  have h : ∀ a ∈ List.range N,
      ((List.range N).map fun j => buf ((M + 2) * (a + 1) + 1 + j)).length = N := by
    intro a _
    rw [List.length_map, List.length_range]
  rw [length_flatMap_const _ _ N h, List.length_range]

/-! Claim theorems. -/

/-- Claim C5 counterexample: with M = 8, N = 4, dims = {2, 1}, domain_init
leaves row 5 unwritten although it lies inside the claimed row extent
M / dims[1] = 8, and writes column 3 although it lies outside the claimed
column extent N / dims[0] = 2; moreover neither derived extent variable of the
code equals the claimed expression. -/
theorem local_extents_counterexample :
    domain_init_T 8 4 2 1 0 0 1 5 = none ∧ 5 ≤ 8 / 1 ∧
    (domain_init_T 8 4 2 1 0 0 3 1).isSome = true ∧ ¬(3 ≤ 4 / 2) ∧
    local_row 4 1 ≠ 8 / 1 ∧ local_col 8 2 ≠ 4 / 2 := by
  refine ⟨?_, by norm_num, ?_, by norm_num, by norm_num [local_row], by norm_num [local_col]⟩
  · unfold domain_init_T
    rw [if_neg]
    norm_num [local_col]
  · unfold domain_init_T
    rw [if_pos]
    · rfl
    · norm_num [local_row, local_col]

/-- Claim C5 (amended): the local subgrid extents derived by domain_init are
local_col = M / dims[0] interior rows and local_row = N / dims[1] interior
columns: the written cells of the temperature buffer are exactly those with
1 ≤ x ≤ N / dims[1] and 1 ≤ y ≤ M / dims[0]. -/
theorem domain_init_extents (M N d0 d1 c0 c1 x y : ℕ) :
    (domain_init_T M N d0 d1 c0 c1 x y).isSome = true ↔
      1 ≤ x ∧ x ≤ N / d1 ∧ 1 ≤ y ∧ y ≤ M / d0 := by
  unfold domain_init_T local_row local_col
  split_ifs with h
  · simp [h]
  · simp [h]

/-- Claim C10: domain_init stores the same temperature value into both
ping-pong buffers at every interior cell of the local subgrid, and leaves
every halo-ring cell of all three buffers unwritten. -/
theorem domain_init_buffers (M N d0 d1 c0 c1 x y : ℕ) :
    (1 ≤ x → x ≤ local_row N d1 → 1 ≤ y → y ≤ local_col M d0 →
      domain_init_T M N d0 d1 c0 c1 x y = domain_init_T_next M N d0 d1 c0 c1 x y ∧
      (domain_init_T M N d0 d1 c0 c1 x y).isSome = true) ∧
    (x = 0 ∨ x = local_row N d1 + 1 ∨ y = 0 ∨ y = local_col M d0 + 1 →
      domain_init_T M N d0 d1 c0 c1 x y = none ∧
      domain_init_T_next M N d0 d1 c0 c1 x y = none ∧
      domain_init_K M N d0 d1 c0 c1 x y = none) := by
  constructor
  · intro h1 h2 h3 h4
    unfold domain_init_T domain_init_T_next
    rw [if_pos ⟨h1, h2, h3, h4⟩]
    exact ⟨rfl, rfl⟩
  · intro h
    have hg : ¬(1 ≤ x ∧ x ≤ local_row N d1 ∧ 1 ≤ y ∧ y ≤ local_col M d0) := by omega
    unfold domain_init_T domain_init_T_next domain_init_K
    rw [if_neg hg, if_neg hg]
    exact ⟨rfl, rfl, rfl⟩

/-- Witness for claim C10 via domain_init_buffers at M = N = 2, one process:
the two buffers agree at interior cell (1, 1) and the halo cell (0, 1) is
unwritten. -/
theorem domain_init_buffers_witness :
    (1 ≤ 1 ∧ 1 ≤ local_row 2 1 ∧ 1 ≤ local_col 2 1) ∧
    domain_init_T 2 2 1 1 0 0 1 1 = domain_init_T_next 2 2 1 1 0 0 1 1 ∧
    domain_init_T 2 2 1 1 0 0 0 1 = none :=
  ⟨by decide,
   ((domain_init_buffers 2 2 1 1 0 0 1 1).1 (by decide) (by decide) (by decide) (by decide)).1,
   ((domain_init_buffers 2 2 1 1 0 0 0 1).2 (Or.inl rfl)).1⟩

/-- Claim C6 (code evaluation at the failing input): the main loop never calls
domain_save, so the run produces no checkpoint at any iteration, in particular
none at iteration 0 even though 0 % snapshot_frequency = 0. -/
theorem main_loop_never_saves :
    (∀ mi sf s, (main_loop mi sf s).saved = s.saved) ∧
    (main_loop 0 1 ⟨fun _ _ => 0, fun _ _ => 0, []⟩).saved = [] ∧ 0 % 1 = 0 :=
  ⟨fun mi sf s => foldl_driver_saved (List.range (mi + 1)) sf s,
   foldl_driver_saved (List.range 1) 1 ⟨fun _ _ => 0, fun _ _ => 0, []⟩, rfl⟩

/-- Claim C9 (code evaluation at the failing input): with two processes and an
unparsable configuration, rank 0 exits by itself while rank 1 continues into
the MPI_Bcast calls; exit(1) terminates only the calling rank, not the whole
two-process run. -/
theorem exit_terminates_only_caller :
    startup_outcome 0 false = ProcOutcome.exitedSelf ∧
    startup_outcome 1 false = ProcOutcome.continues ∧
    exit_ranks 0 ≠ Finset.range 2 := by
  refine ⟨by decide, by decide, ?_⟩
  decide

/-- Claim C2 (code evaluation at the failing input): with max_iteration = 0 and
snapshot_frequency = 1 the main loop runs exactly one step whose entire effect
is to swap the two buffers, saving no checkpoint; the stencil value the claim
requires at cell (1, 1) after the step is 0, which differs from the value 1
that the bare swap leaves in the current buffer. -/
theorem main_loop_only_swaps :
    main_loop 0 1 ⟨fun _ _ => 0, fun _ _ => 1, []⟩ = ⟨fun _ _ => 1, fun _ _ => 0, []⟩ ∧
    (main_loop 0 1 ⟨fun _ _ => 0, fun _ _ => 1, []⟩).saved = [] ∧
    time_step 4 4 1 dt (fun _ _ => 1) (fun _ _ => 0) (fun _ _ => 1) 1 1 = 0 ∧
    (main_loop 0 1 ⟨fun _ _ => 0, fun _ _ => 1, []⟩).temp0 1 1 = 1 ∧
    (0 : ℝ) ≠ 1 := by
  refine ⟨rfl, rfl, ?_, rfl, by norm_num⟩
  unfold time_step
  rw [if_pos (by norm_num)]
  norm_num

/-- Claim C1 (code evaluation at the failing input): with M = N = 4 and two
processes (dims = {2, 1}), cell (3, 1) is interior to the local subgrid
(columns run to local_row 4 1 = 4, rows to local_col 4 2 = 2), but time_step
iterates x only up to N / size = 2 and leaves the stale next-buffer value 1
there instead of the stencil value 0; at (1, 1), inside its actual iteration
area, time_step does store the five-point formula. -/
theorem time_step_skips_interior_cell :
    time_step 4 4 2 dt (fun _ _ => 1) (fun _ _ => 0) (fun _ _ => 1) 3 1 = 1 ∧
    (1 : ℝ) ≠ 0 + 1 * dt * ((0 - 2 * 0 + 0) + (0 - 2 * 0 + 0)) ∧
    (1 ≤ 3 ∧ 3 ≤ local_row 4 1 ∧ 1 ≤ 1 ∧ 1 ≤ local_col 4 2) ∧
    time_step 4 4 2 dt (fun _ _ => 1) (fun _ _ => 0) (fun _ _ => 1) 1 1
      = 0 + 1 * dt * ((0 - 2 * 0 + 0) + (0 - 2 * 0 + 0)) := by
  refine ⟨?_, by norm_num [dt], by norm_num [local_row, local_col], ?_⟩
  · unfold time_step
    rw [if_neg (by norm_num)]
  · unfold time_step
    rw [if_pos (by norm_num)]

/-- Claim C3: after the modelled halo exchange, for any two adjacent subgrids
the halo ring on each side equals the neighbor's corresponding interior ring
(same values), and the interior of every subgrid is untouched, so only the
halo ring of the current buffer is mutated. -/
theorem border_exchange_halo (d0 d1 nx ny : ℕ) (f : ℕ → ℕ → Grid) (p q : ℕ) :
    (∀ y, 1 ≤ y → y ≤ ny → p + 1 < d0 →
      border_exchange d0 d1 nx ny f p q (nx + 1) y = f (p + 1) q 1 y ∧
      border_exchange d0 d1 nx ny f (p + 1) q 0 y = f p q nx y) ∧
    (∀ x, 1 ≤ x → x ≤ nx → q + 1 < d1 →
      border_exchange d0 d1 nx ny f p q x (ny + 1) = f p (q + 1) x 1 ∧
      border_exchange d0 d1 nx ny f p (q + 1) x 0 = f p q x ny) ∧
    (∀ x y, 1 ≤ x → x ≤ nx → 1 ≤ y → y ≤ ny →
      border_exchange d0 d1 nx ny f p q x y = f p q x y) := by
  refine ⟨fun y hy1 hy2 hp => ⟨?_, ?_⟩, fun x hx1 hx2 hq => ⟨?_, ?_⟩,
    fun x y hx1 hx2 hy1 hy2 => ?_⟩ <;>
      unfold border_exchange <;> split_ifs <;> first | rfl | omega | tauto

/-- Witness for claim C3 via border_exchange_halo on a 2 x 1 topology with
2 x 1 subgrids: the right halo column of the left subgrid receives the right
neighbor's first interior column, whose value is 1 * 8 + 1 + 1 = 10. -/
theorem border_exchange_halo_witness :
    (0 + 1 < 2 ∧ (1 : ℕ) ≤ 1) ∧
    border_exchange 2 1 2 1 (fun a _ b c => (a : ℝ) * 8 + b + c) 0 0 3 1 = 10 := by
  refine ⟨by norm_num, ?_⟩
  have h := ((border_exchange_halo 2 1 2 1 (fun a _ b c => (a : ℝ) * 8 + b + c) 0 0).1
    1 le_rfl le_rfl (by norm_num)).1
  norm_num at h
  exact h

/-- Claim C4 (code evaluation at the failing input): with four processes in a
2 x 2 topology, rank 1 has cartesian coordinates (0, 1), so its subgrid sits
at global y offset local_col * 1 = 2 and is not at the global y = 0 edge; yet
boundary_condition overwrites its (1, 0) halo cell with the mirror value,
because the y-edge mirror loop runs on every rank with no topology guard. -/
theorem boundary_condition_ignores_topology :
    boundary_condition 4 4 2 2 1 4 (fun x y => if x = 1 ∧ y = 2 then 7 else 5) 1 0 = 7 ∧
    (fun x y : ℕ => if x = 1 ∧ y = 2 then (7 : ℝ) else 5) 1 0 = 5 ∧
    (7 : ℝ) ≠ 5 ∧
    cart_coord0 2 1 = 0 ∧ cart_coord1 2 1 = 1 ∧ offset_y 4 2 (cart_coord1 2 1) = 2 := by
  refine ⟨?_, by norm_num, by norm_num, by decide, by decide, by decide⟩
  unfold boundary_condition bc_right bc_left bc_bottom bc_top
  norm_num

/-- Claim C7 counterexample: with M = 4 and N = 8 the file written by
domain_save holds 64 doubles (N rows of N values each), not the claimed
N x M = 8 x 4 = 32. -/
theorem domain_save_content_square :
    (domain_save_content 4 8 fun _ => none).length = 64 ∧ 64 ≠ 8 * 4 := by
  refine ⟨?_, by norm_num⟩
  rw [domain_save_length]

/-- Claim C7 (amended): each checkpoint file is named by the zero-padded
five-digit snapshot index with a .bin extension under the fixed directory
data/, and holds N rows of N doubles each (N * N cells of eight bytes, no
header) taken from the current buffer at row stride M + 2; for M = N = 8 this
is 8 * 8 * 8 = 512 bytes, and N x N coincides with the claimed N x M exactly
when M = N. -/
theorem domain_save_format (M N : ℕ) (buf : ℕ → Option ℝ) :
    (domain_save_content M N buf).length = N * N ∧
    8 * (domain_save_content 8 8 buf).length = 512 ∧
    domain_save_filename 1 0 = "data/00000.bin" ∧
    domain_save_filename 2 7 = "data/00003.bin" := by
  refine ⟨domain_save_length M N buf, ?_, by decide, by decide⟩
  rw [domain_save_length]

/-- Claim C8 counterexample: in the scenario M = N = 8, one process,
max_iteration = 0, snapshot_frequency = 1, the run emits no checkpoint at all
(the domain_save call is commented out); and the first value domain_save would
write from the initialized domain is 30 + 30 * sin(2 / 20), the initial
condition at one-indexed (1, 1), which differs from the claimed value at
zero-indexed (0, 0), namely 30 + 30 * sin((0 + 0) / 20) = 30. -/
theorem scenario_checkpoint_counterexample :
    (main_loop 0 1 ⟨fun _ _ => 30, fun _ _ => 30, []⟩).saved = [] ∧
    (domain_save_content 8 8 (flatten_buf 8 (domain_init_T 8 8 1 1 0 0))).getD 0 none
      = some (30 + 30 * Real.sin (2 / 20)) ∧
    (30 : ℝ) + 30 * Real.sin (2 / 20) ≠ 30 + 30 * Real.sin ((0 + 0) / 20) := by
  refine ⟨foldl_driver_saved (List.range 1) 1 _, ?_, ?_⟩
  · have h8 : List.range 8 = [0, 1, 2, 3, 4, 5, 6, 7] := by decide
    unfold domain_save_content
    rw [h8]
    simp only [List.flatMap_cons, List.map_cons, List.cons_append, List.getD_cons_zero]
    unfold flatten_buf domain_init_T
    norm_num [local_row, local_col, offset_x, offset_y]
  · have hpi : (2 : ℝ) / 20 < Real.pi := by
      have := Real.pi_gt_three
      linarith
    have hpos : 0 < Real.sin (2 / 20) := Real.sin_pos_of_pos_of_lt_pi (by norm_num) hpi
    have h0 : ((0 : ℝ) + 0) / 20 = 0 := by norm_num
    rw [h0, Real.sin_zero]
    intro h
    nlinarith

/-- Claim C8 (amended): the scenario emits no checkpoint, since the
domain_save call in the loop is commented out; the file that domain_save would
write from the freshly initialized single-process domain holds, at zero-indexed
row r and column c, the value 30 + 30 * sin(((c + 1) + (r + 1)) / 20): the
initial condition evaluated at one-indexed interior coordinates, offset by one
in each axis from the claimed zero-indexed formula. -/
theorem scenario_checkpoint_amended :
    (main_loop 0 1 ⟨fun _ _ => 30, fun _ _ => 30, []⟩).saved = [] ∧
    domain_save_content 8 8 (flatten_buf 8 (domain_init_T 8 8 1 1 0 0))
      = (List.range 8).flatMap fun (r : ℕ) => (List.range 8).map fun (c : ℕ) =>
          some (30 + 30 * Real.sin ((((c : ℝ) + 1) + ((r : ℝ) + 1)) / 20)) := by
  refine ⟨foldl_driver_saved (List.range 1) 1 _, ?_⟩
  unfold domain_save_content
  apply flatMap_congr_mem
  intro i hi
  apply map_congr_mem
  intro j hj
  rw [List.mem_range] at hi hj
  unfold flatten_buf
  have hmod : ((8 + 2) * (i + 1) + 1 + j) % (8 + 2) = 1 + j := by omega
  have hdiv : ((8 + 2) * (i + 1) + 1 + j) / (8 + 2) = i + 1 := by omega
  rw [hmod, hdiv]
  unfold domain_init_T
  rw [if_pos (by unfold local_row local_col; omega)]
  have harg : ((((1 + j : ℕ) : ℝ) + (offset_x 8 1 0 : ℕ)) + (((offset_y 8 1 0 : ℕ) : ℝ) + ((i + 1 : ℕ) : ℝ))) / 20
      = (((j : ℝ) + 1) + ((i : ℝ) + 1)) / 20 := by
    unfold offset_x offset_y local_row local_col
    push_cast
    ring
  rw [harg]

end HeatParallel
